import Mathlib

/-!
Shallow embedding of `src/custom_azure_mcp.py` (Custom Azure MCP Server).

The Azure SDK client is treated as an external collaborator: it is a record
of functions, one per remote primitive the server uses, each returning
`Except String α` where `Except.error e` models the Python call raising an
exception whose `str(e)` is `e`.  Each tool handler is embedded as a total
function that also records the ordered trace of remote calls it issues
(a `List AzureCall`); the outer `Except String _` in a handler's result
models what reaches the MCP transport — `Except.error` would be an uncaught
exception escaping the handler, `Except.ok` a returned envelope.  Python's
`json` module is likewise external: JSON parsing is a parameter
`parse : String → Option JsonVal`, and the final `json.dumps` rendering at
the string boundary is abstracted away, so `get_process_utilization` is
embedded as returning the JSON value it would dump.  The `azure_creds`
initialization guard is outside the model (the client record is the
initialized credentials).
-/

/-- Python's substring test `pat in s`, on the character lists: some suffix of
`s` starts with `pat`. -/
def charsContain : List Char → List Char → Bool
  | pat, [] => pat.isEmpty
  | pat, c :: cs => pat.isPrefixOf (c :: cs) || charsContain pat cs

/-- Python's substring test `pat in s`. -/
def strContains (s pat : String) : Bool :=
  charsContain pat.toList s.toList

/-- Python's `str.lower()`, character by character (ASCII case folding, which
is all the source relies on). -/
def strLower (s : String) : String :=
  ⟨s.data.map Char.toLower⟩

/-- Result status item of an Azure run-command poller
(`run_command_result.value` elements): a `code` and an optional `message`. -/
structure InstanceViewStatus where
  code : String
  message : Option String
deriving DecidableEq, Repr

/-- Result of `begin_run_command(...).result()`. -/
structure RunCommandResult where
  value : List InstanceViewStatus
deriving DecidableEq, Repr

/-- Lines 404–412 and 589–598 of the source (identical in both tools):
fold over `run_command_result.value`, appending `result.message or ""` to the
captured stdout when `result.code == "ComponentStatus/StdOut/succeeded"` and
to the captured stderr when it is `"ComponentStatus/StdErr/succeeded"`. -/
def extractRunCommandOutput (value : List InstanceViewStatus) : String × String :=
  value.foldl
    (fun acc r =>
      if r.code = "ComponentStatus/StdOut/succeeded" then
        (acc.1 ++ r.message.getD "", acc.2)
      else if r.code = "ComponentStatus/StdErr/succeeded" then
        (acc.1, acc.2 ++ r.message.getD "")
      else acc)
    ("", "")

/-- The three outcomes of `restart_service`'s output classification
(lines 414–420): the ✅ branch, the ❌ branch, and the ⚠️ branch
(the spec's "partial"/ambiguous outcome). -/
inductive ServiceOutcome where
  | success
  | failure
  | ambiguous
deriving DecidableEq, Repr

/-- Line 415: `if output and ("✅" in output or "successfully" in output.lower())`. -/
def serviceSuccessMarker (output : String) : Bool :=
  output != "" && (strContains output "✅" || strContains (strLower output) "successfully")

/-- Line 417: `elif "❌" in output or error_output`. -/
def serviceFailureMarker (output errorOutput : String) : Bool :=
  strContains output "❌" || errorOutput != ""

/-- The ordered classification of lines 414–420: the success-marker test is
made first, then the failure test, then the ⚠️ default. -/
def classifyServiceOutcome (output errorOutput : String) : ServiceOutcome :=
  if serviceSuccessMarker output then .success
  else if serviceFailureMarker output errorOutput then .failure
  else .ambiguous

/-- The message `restart_service` returns for each classification branch
(lines 416, 418, 420), including the `error_output if error_output else ''`
interpolation of the failure branch. -/
def classifyServiceOutput (serviceName vmName output errorOutput : String) : String :=
  match classifyServiceOutcome output errorOutput with
  | .success =>
      "✅ Service Restart Completed for '" ++ serviceName ++ "' on VM '" ++ vmName ++
        "':\n\n" ++ output
  | .failure =>
      "❌ Service Restart Failed for '" ++ serviceName ++ "' on VM '" ++ vmName ++
        "':\n\n" ++ output ++ "\n" ++ (if errorOutput != "" then errorOutput else "")
  | .ambiguous =>
      "⚠️  Service Restart Status for '" ++ serviceName ++ "' on VM '" ++ vmName ++
        "':\n\n" ++ output

/-- JSON values, for the captured-stdout parsing of `get_process_utilization`. -/
inductive JsonVal where
  | null
  | bool (b : Bool)
  | num (n : Int)
  | str (s : String)
  | arr (elems : List JsonVal)
  | obj (fields : List (String × JsonVal))
deriving Repr

/-- Field lookup in a JSON object value. -/
def JsonVal.getField : JsonVal → String → Option JsonVal
  | .obj fields, k => fields.lookup k
  | _, _ => none

/-- Parameters of `virtual_networks.begin_create_or_update` (lines 112–117). -/
structure VnetParams where
  location : String
  addressPrefixes : List String
deriving DecidableEq, Repr

/-- Parameters of `subnets.begin_create_or_update` (lines 129–131). -/
structure SubnetParams where
  addressPrefixCidr : String
deriving DecidableEq, Repr

/-- Parameters of `public_ip_addresses.begin_create_or_update` (lines 144–149). -/
structure PublicIPParams where
  location : String
  skuName : String
  publicIpAllocationMethod : String
  publicIpAddressVersion : String
deriving DecidableEq, Repr

/-- One entry of `ip_configurations` in the NIC parameters (lines 163–167). -/
structure NicIpConfiguration where
  name : String
  subnetId : String
  publicIpAddressId : String
deriving DecidableEq, Repr

/-- Parameters of `network_interfaces.begin_create_or_update` (lines 161–168). -/
structure NicParams where
  location : String
  ipConfigurations : List NicIpConfiguration
deriving DecidableEq, Repr

/-- The `image_reference` dictionaries of lines 178–190. -/
structure ImageReference where
  publisher : String
  offer : String
  sku : String
  version : String
deriving DecidableEq, Repr

/-- The `os_disk` part of the storage profile (lines 202–207). -/
structure OsDisk where
  createOption : String
  storageAccountType : String
deriving DecidableEq, Repr

/-- Parameters of `virtual_machines.begin_create_or_update` (lines 195–222). -/
structure VmParams where
  location : String
  vmSize : String
  imageReference : ImageReference
  osDisk : OsDisk
  computerName : String
  adminUsername : String
  adminPassword : String
  networkInterfaceId : String
  networkInterfacePrimary : Bool
deriving DecidableEq, Repr

/-- A created resource as seen by the orchestrator: only its `.id` is read. -/
structure AzResource where
  id : String
deriving DecidableEq, Repr

/-- The final `public_ip_addresses.get` read: only `.ip_address` is used. -/
structure PublicIPInfo where
  ipAddress : String
deriving DecidableEq, Repr

/-- One remote call issued through the Azure SDK clients, with the request
parameters the source passes.  `deleteResource` is expressible by the remote
control plane but never issued by this server; it is included so that the
absence of rollback/teardown calls is a statement about traces, not about the
vocabulary. -/
inductive AzureCall where
  | createResourceGroup (resourceGroup location : String)
  | createVirtualNetwork (resourceGroup vnetName : String) (params : VnetParams)
  | createSubnet (resourceGroup vnetName subnetName : String) (params : SubnetParams)
  | createPublicIP (resourceGroup publicIpName : String) (params : PublicIPParams)
  | createNetworkInterface (resourceGroup nicName : String) (params : NicParams)
  | createVirtualMachine (resourceGroup vmName : String) (params : VmParams)
  | getPublicIP (resourceGroup publicIpName : String)
  | getVirtualMachine (resourceGroup vmName : String)
  | restartVirtualMachine (resourceGroup vmName : String)
  | runCommand (resourceGroup vmName commandId : String) (script : List String)
  | deleteResource (name : String)
deriving DecidableEq, Repr

/-- The remote Azure control plane as the server uses it.  Each field models
one SDK primitive, awaited to completion (`begin_*(...).result()` is one
field); `Except.error e` models the call raising with message `e`.  The
behaviour of every field is arbitrary: theorems quantify over it. -/
structure AzureClient where
  createResourceGroup : String → String → Except String Unit
  createVirtualNetwork : String → String → VnetParams → Except String AzResource
  createSubnet : String → String → String → SubnetParams → Except String AzResource
  createPublicIP : String → String → PublicIPParams → Except String AzResource
  createNetworkInterface : String → String → NicParams → Except String AzResource
  createVirtualMachine : String → String → VmParams → Except String AzResource
  getPublicIP : String → String → Except String PublicIPInfo
  getVirtualMachine : String → String → Except String Unit
  restartVirtualMachine : String → String → Except String Unit
  runCommand : String → String → String → List String → Except String RunCommandResult

/-- The Windows PowerShell service-restart script of lines 302–343, after
f-string interpolation (literal braces written with hex escapes). -/
def windowsServiceRestartScript (serviceName vmName : String) : String :=
  "\n$serviceName = \"" ++ serviceName ++
  "\"\n\nWrite-Host \"=== SERVICE RESTART ===\"\nWrite-Host \"Service: $serviceName\"\nWrite-Host \"VM: " ++
  vmName ++
  "\"\nWrite-Host \"\"\n\n# Check if service exists\n$service = Get-Service -Name $serviceName -ErrorAction SilentlyContinue\n\nif ($null -eq $service) \x7b\n    Write-Host \"❌ Service '$serviceName' not found on this VM\"\n    Write-Host \"\"\n    Write-Host \"Available services:\"\n    Get-Service | Where-Object \x7b $_.Status -eq 'Running' \x7d | Select-Object -First 10 Name, DisplayName | Format-Table -AutoSize\n    exit 1\n\x7d\n\nWrite-Host \"Current status: $($service.Status)\"\nWrite-Host \"\"\n\n# Restart the service\ntry \x7b\n    Write-Host \"🔄 Restarting service...\"\n    Restart-Service -Name $serviceName -Force -ErrorAction Stop\n    Start-Sleep -Seconds 2\n    \n    # Verify service is running\n    $service = Get-Service -Name $serviceName\n    \n    if ($service.Status -eq 'Running') \x7b\n        Write-Host \"✅ Service restarted successfully!\"\n        Write-Host \"New status: $($service.Status)\"\n    \x7d else \x7b\n        Write-Host \"⚠️  Service restarted but status is: $($service.Status)\"\n    \x7d\n\x7d catch \x7b\n    Write-Host \"❌ Failed to restart service: $($_.Exception.Message)\"\n    exit 1\n\x7d\n"

/-- The Linux bash service-restart script of lines 347–390, after f-string
interpolation. -/
def linuxServiceRestartScript (serviceName vmName : String) : String :=
  "\n#!/bin/bash\n\nSERVICE_NAME=\"" ++ serviceName ++
  "\"\n\necho \"=== SERVICE RESTART ===\"\necho \"Service: $SERVICE_NAME\"\necho \"VM: " ++
  vmName ++
  "\"\necho \"\"\n\n# Check if service exists\nif ! systemctl list-units --type=service --all | grep -q \"$SERVICE_NAME.service\"; then\n    echo \"❌ Service '$SERVICE_NAME' not found on this VM\"\n    echo \"\"\n    echo \"Available services:\"\n    systemctl list-units --type=service --state=running | head -n 15\n    exit 1\nfi\n\n# Get current status\necho \"Current status:\"\nsystemctl status $SERVICE_NAME --no-pager | head -n 5\necho \"\"\n\n# Restart the service\necho \"🔄 Restarting service...\"\nif systemctl restart $SERVICE_NAME; then\n    sleep 2\n    \n    # Verify service is running\n    if systemctl is-active --quiet $SERVICE_NAME; then\n        echo \"✅ Service restarted successfully!\"\n        echo \"New status:\"\n        systemctl status $SERVICE_NAME --no-pager | head -n 5\n    else\n        echo \"⚠️  Service restarted but may not be running properly\"\n        systemctl status $SERVICE_NAME --no-pager | head -n 10\n    fi\nelse\n    echo \"❌ Failed to restart service\"\n    systemctl status $SERVICE_NAME --no-pager\n    exit 1\nfi\n"

/-- The Windows PowerShell sampling script of lines 464–509, after f-string
interpolation (literal braces written with hex escapes). -/
def windowsProcessUtilScript (vmName : String) (sampleSeconds topN : Int) : String :=
  "\n$SampleSeconds = " ++ toString sampleSeconds ++
  "\n$TopN = " ++ toString topN ++
  "\n\n# Step 1: First snapshot\n$proc1 = Get-Process | Select-Object Id, Name, CPU, WorkingSet64\n\nStart-Sleep -Seconds $SampleSeconds\n\n# Step 2: Second snapshot\n$proc2 = Get-Process | Select-Object Id, Name, CPU, WorkingSet64\n\n# Step 3: System resource details\n$cpuCount = (Get-WmiObject Win32_ComputerSystem).NumberOfLogicalProcessors\n$totalMem = (Get-WmiObject Win32_OperatingSystem).TotalVisibleMemorySize * 1KB\n\n# Step 4: Compute CPU & Memory%\n$result = foreach ($p2 in $proc2) \x7b\n    $p1 = $proc1 | Where-Object \x7b $_.Id -eq $p2.Id \x7d\n    if ($p1 -and $p2.CPU -ne $null) \x7b\n        $cpuDelta = ($p2.CPU - $p1.CPU)\n        $cpuPct = [math]::Round(($cpuDelta / $SampleSeconds / $cpuCount) * 100, 2)\n        $memPct = [math]::Round(($p2.WorkingSet64 / $totalMem) * 100, 2)\n        [PSCustomObject]@\x7b\n            process_name = $p2.Name\n            pid = $p2.Id\n            cpu_percent = $cpuPct\n            memory_mb = [math]::Round($p2.WorkingSet64 / 1MB, 2)\n            memory_percent = $memPct\n        \x7d\n    \x7d\n\x7d\n\n# Step 5: Output as JSON\n$output = @\x7b\n    success = $true\n    vm_name = \"" ++
  vmName ++
  "\"\n    os_type = \"windows\"\n    sample_seconds = $SampleSeconds\n    cpu_cores = $cpuCount\n    total_memory_gb = [math]::Round($totalMem / 1GB, 2)\n    processes = @($result | Sort-Object -Property cpu_percent -Descending | Select-Object -First $TopN)\n\x7d\n\n$output | ConvertTo-Json -Depth 3\n"

/-- The Linux bash sampling script of lines 513–576, after f-string
interpolation (literal braces written with hex escapes). -/
def linuxProcessUtilScript (vmName : String) (sampleSeconds topN : Int) : String :=
  "\n#!/bin/bash\n\nSAMPLE_SECONDS=" ++ toString sampleSeconds ++
  "\nTOP_N=" ++ toString topN ++
  "\n\n# Get CPU cores\nCPU_CORES=$(nproc)\n\n# Get total memory in bytes\nTOTAL_MEM=$(grep MemTotal /proc/meminfo | awk '\x7bprint $2 * 1024\x7d')\nTOTAL_MEM_GB=$(echo \"scale=2; $TOTAL_MEM / 1024 / 1024 / 1024\" | bc)\n\n# Function to get process stats\nget_proc_stats() \x7b\n    ps -eo pid,comm,pcpu,pmem,rss --sort=-pcpu | tail -n +2\n\x7d\n\n# First snapshot\nPROC1=$(get_proc_stats)\n\nsleep $SAMPLE_SECONDS\n\n# Second snapshot\nPROC2=$(get_proc_stats)\n\n# Build JSON output\necho '\x7b\n  \"success\": true,\n  \"vm_name\": \"" ++
  vmName ++
  "\",\n  \"os_type\": \"linux\",\n  \"sample_seconds\": '$SAMPLE_SECONDS',\n  \"cpu_cores\": '$CPU_CORES',\n  \"total_memory_gb\": '$TOTAL_MEM_GB',\n  \"processes\": ['\n\n# Parse top N processes\nFIRST=true\necho \"$PROC2\" | head -n $TOP_N | while IFS= read -r line; do\n    PID=$(echo $line | awk '\x7bprint $1\x7d')\n    PNAME=$(echo $line | awk '\x7bprint $2\x7d')\n    CPU=$(echo $line | awk '\x7bprint $3\x7d')\n    MEM_PCT=$(echo $line | awk '\x7bprint $4\x7d')\n    RSS=$(echo $line | awk '\x7bprint $5\x7d')\n    MEM_MB=$(echo \"scale=2; $RSS / 1024\" | bc)\n    \n    if [ \"$FIRST\" = false ]; then\n        echo ','\n    fi\n    FIRST=false\n    \n    echo '    \x7b'\n    echo '      \"process_name\": \"'$PNAME'\",'\n    echo '      \"pid\": '$PID','\n    echo '      \"cpu_percent\": '$CPU','\n    echo '      \"memory_mb\": '$MEM_MB','\n    echo '      \"memory_percent\": '$MEM_PCT\n    echo '    \x7d'\ndone\n\necho '\n  ]\n\x7d'\n"

/-- Line 300 / 344 / 391 and 462 / 510 / 577: the run-command id chosen from
the lower-cased os_type. -/
def runCommandIdFor (osType : String) : String :=
  if strLower osType = "windows" then "RunPowerShellScript" else "RunShellScript"

/-- The script `restart_service` ships, chosen from the lower-cased os_type. -/
def serviceRestartScript (osType serviceName vmName : String) : String :=
  if strLower osType = "windows" then windowsServiceRestartScript serviceName vmName
  else linuxServiceRestartScript serviceName vmName

/-- The script `get_process_utilization` ships, chosen from the lower-cased
os_type. -/
def processUtilScript (osType vmName : String) (sampleSeconds topN : Int) : String :=
  if strLower osType = "windows" then windowsProcessUtilScript vmName sampleSeconds topN
  else linuxProcessUtilScript vmName sampleSeconds topN

/-- The fixed virtual-network parameters of lines 112–117. -/
def vnetParamsFor (location : String) : VnetParams :=
  ⟨location, ["10.0.0.0/16"]⟩

/-- The fixed subnet parameters of lines 129–131. -/
def deploySubnetParams : SubnetParams :=
  ⟨"10.0.0.0/24"⟩

/-- The fixed public-IP parameters of lines 144–149. -/
def publicIpParamsFor (location : String) : PublicIPParams :=
  ⟨location, "Standard", "Static", "IPv4"⟩

/-- The Linux image reference of lines 178–183. -/
def linuxImageReference : ImageReference :=
  ⟨"Canonical", "0001-com-ubuntu-server-jammy", "22_04-lts-gen2", "latest"⟩

/-- The Windows image reference of lines 185–190. -/
def windowsImageReference : ImageReference :=
  ⟨"MicrosoftWindowsServer", "WindowsServer", "2022-datacenter-azure-edition", "latest"⟩

/-- The image lookup of lines 177–190: `"linux"` selects the Ubuntu reference,
the remaining (already validated) case is `"windows"`. -/
def imageReferenceFor (osType : String) : ImageReference :=
  if osType = "linux" then linuxImageReference else windowsImageReference

/-- The fixed OS-disk storage profile of lines 202–207. -/
def deployOsDisk : OsDisk :=
  ⟨"FromImage", "Premium_LRS"⟩

/-- The NIC parameters of lines 161–168, embedding the subnet's and the
public IP's returned identifiers. -/
def nicParamsFor (location subnetId publicIpId : String) : NicParams :=
  ⟨location, [⟨"ipconfig1", subnetId, publicIpId⟩]⟩

/-- The VM parameters of lines 195–222, embedding the NIC's returned
identifier. -/
def vmParamsFor (location vmSize : String) (image : ImageReference)
    (vmName adminUsername adminPassword nicId : String) : VmParams :=
  ⟨location, vmSize, image, deployOsDisk, vmName, adminUsername, adminPassword, nicId, true⟩

/-- The success message of lines 236–259, including the per-OS connection
hint. -/
def deploySuccessMessage (vmName resourceGroup location vmSize osType
    publicIpAddress adminUsername : String) : String :=
  "✅ Virtual Machine deployed successfully!\n\nVM Details:\n- Name: " ++ vmName ++
  "\n- Resource Group: " ++ resourceGroup ++
  "\n- Location: " ++ location ++
  "\n- Size: " ++ vmSize ++
  "\n- OS: " ++ osType ++
  "\n- Public IP: " ++ publicIpAddress ++
  "\n- Admin Username: " ++ adminUsername ++
  "\n\nResources Created:\n- Virtual Machine: " ++ vmName ++
  "\n- Network Interface: " ++ (vmName ++ "-nic") ++
  "\n- Public IP: " ++ (vmName ++ "-ip") ++
  "\n- Virtual Network: " ++ (vmName ++ "-vnet") ++
  "\n- Subnet: " ++ (vmName ++ "-subnet") ++
  "\n\nConnection Info:" ++
  (if osType = "linux" then "\n  ssh " ++ adminUsername ++ "@" ++ publicIpAddress
   else "\n  RDP to " ++ publicIpAddress)

/-- The try-block of `deploy_vm` (lines 100–261): the six create/update steps
in order, each awaited, threading the subnet and public-IP ids into the NIC
request and the NIC id into the VM request, then the final public-IP read.
An `Except.error` from any step aborts immediately, with the trace of the
calls issued so far. -/
def deployVMPipeline (cl : AzureClient) (resourceGroup vmName adminPassword
    location vmSize adminUsername osType : String) :
    List AzureCall × Except String String :=
  let c1 := AzureCall.createResourceGroup resourceGroup location
  match cl.createResourceGroup resourceGroup location with
  | .error e => ([c1], .error e)
  | .ok _ =>
  let vnetName := vmName ++ "-vnet"
  let c2 := AzureCall.createVirtualNetwork resourceGroup vnetName (vnetParamsFor location)
  match cl.createVirtualNetwork resourceGroup vnetName (vnetParamsFor location) with
  | .error e => ([c1, c2], .error e)
  | .ok _vnetResult =>
  let subnetName := vmName ++ "-subnet"
  let c3 := AzureCall.createSubnet resourceGroup vnetName subnetName deploySubnetParams
  match cl.createSubnet resourceGroup vnetName subnetName deploySubnetParams with
  | .error e => ([c1, c2, c3], .error e)
  | .ok subnetResult =>
  let publicIpName := vmName ++ "-ip"
  let c4 := AzureCall.createPublicIP resourceGroup publicIpName (publicIpParamsFor location)
  match cl.createPublicIP resourceGroup publicIpName (publicIpParamsFor location) with
  | .error e => ([c1, c2, c3, c4], .error e)
  | .ok publicIpResult =>
  let nicName := vmName ++ "-nic"
  let nicParams := nicParamsFor location subnetResult.id publicIpResult.id
  let c5 := AzureCall.createNetworkInterface resourceGroup nicName nicParams
  match cl.createNetworkInterface resourceGroup nicName nicParams with
  | .error e => ([c1, c2, c3, c4, c5], .error e)
  | .ok nicResult =>
  let vmParams := vmParamsFor location vmSize (imageReferenceFor osType) vmName
      adminUsername adminPassword nicResult.id
  let c6 := AzureCall.createVirtualMachine resourceGroup vmName vmParams
  match cl.createVirtualMachine resourceGroup vmName vmParams with
  | .error e => ([c1, c2, c3, c4, c5, c6], .error e)
  | .ok _vmResult =>
  let c7 := AzureCall.getPublicIP resourceGroup publicIpName
  match cl.getPublicIP resourceGroup publicIpName with
  | .error e => ([c1, c2, c3, c4, c5, c6, c7], .error e)
  | .ok publicIp =>
    ([c1, c2, c3, c4, c5, c6, c7],
     .ok (deploySuccessMessage vmName resourceGroup location vmSize osType
       publicIp.ipAddress adminUsername))

/-- The `deploy_vm` tool (lines 66–266): argument validation, then the
pipeline inside try, with the except-clause turning any raised error into the
`❌ Failed to deploy VM` envelope.  The result's second component is what the
transport receives; it is an `Except.ok` envelope on every path. -/
def deploy_vm (cl : AzureClient) (resourceGroup vmName adminPassword location
    vmSize adminUsername osType : String) : List AzureCall × Except String String :=
  if adminPassword = "" then
    ([], .ok "❌ Error: admin_password is required")
  else if osType ≠ "linux" ∧ osType ≠ "windows" then
    ([], .ok "❌ Error: os_type must be 'linux' or 'windows'")
  else
    match deployVMPipeline cl resourceGroup vmName adminPassword location vmSize
        adminUsername osType with
    | (trace, .ok msg) => (trace, .ok msg)
    | (trace, .error e) =>
        (trace, .ok ("❌ Failed to deploy VM '" ++ vmName ++ "': " ++ e))

/-- The `restart_vm` tool (lines 627–668): validate arguments, fetch the VM
(NotFound or any other raise is caught into the ❌ envelope), then issue the
restart and await it; only a completed restart returns the ✅ message. -/
def restart_vm (cl : AzureClient) (resourceGroup vmName : String) :
    List AzureCall × Except String String :=
  if resourceGroup = "" ∨ vmName = "" then
    ([], .ok "❌ Error: Both 'resource_group' and 'vm_name' are required")
  else
    let g := AzureCall.getVirtualMachine resourceGroup vmName
    match cl.getVirtualMachine resourceGroup vmName with
    | .error e => ([g], .ok ("❌ Failed to restart VM '" ++ vmName ++ "': " ++ e))
    | .ok _ =>
        let r := AzureCall.restartVirtualMachine resourceGroup vmName
        match cl.restartVirtualMachine resourceGroup vmName with
        | .ok _ =>
            ([g, r], .ok ("✅ Successfully restarted VM '" ++ vmName ++
              "' in resource group '" ++ resourceGroup ++ "'"))
        | .error e => ([g, r], .ok ("❌ Failed to restart VM '" ++ vmName ++ "': " ++ e))

/-- The `restart_service` tool (lines 268–425): validate arguments with the
lower-cased os_type, ship the per-OS script through run-command, extract the
captured stdout/stderr and classify it; a raise from the outer run-command
call is caught into the ❌ envelope. -/
def restart_service (cl : AzureClient) (resourceGroup vmName serviceName
    osType : String) : List AzureCall × Except String String :=
  if resourceGroup = "" ∨ vmName = "" ∨ serviceName = "" then
    ([], .ok "❌ Error: resource_group, vm_name, and service_name are required")
  else if strLower osType ≠ "windows" ∧ strLower osType ≠ "linux" then
    ([], .ok "❌ Error: os_type must be 'windows' or 'linux'")
  else
    let commandId := runCommandIdFor osType
    let script := serviceRestartScript osType serviceName vmName
    let call := AzureCall.runCommand resourceGroup vmName commandId [script]
    match cl.runCommand resourceGroup vmName commandId [script] with
    | .ok res =>
        let out := extractRunCommandOutput res.value
        ([call], .ok (classifyServiceOutput serviceName vmName out.1 out.2))
    | .error e =>
        ([call], .ok ("❌ Failed to restart service '" ++ serviceName ++
          "' on VM '" ++ vmName ++ "': " ++ e))

/-- The failure envelope of lines 608–613 (`json.JSONDecodeError` path). -/
def jsonParseFailEnvelope (output errorOutput : String) : JsonVal :=
  .obj [("success", .bool false),
        ("error", .str "Failed to parse output as JSON"),
        ("raw_output", .str output),
        ("error_output", .str errorOutput)]

/-- The failure envelope of lines 615–619 (empty captured stdout). -/
def noOutputEnvelope (errorOutput : String) : JsonVal :=
  .obj [("success", .bool false),
        ("error", .str "No output received from VM"),
        ("error_output", .str errorOutput)]

/-- The `get_process_utilization` tool (lines 428–624): validate arguments
with the lower-cased os_type, ship the per-OS sampling script, extract the
captured output, and if stdout is non-empty parse it as JSON — a parsed
document is returned as is (`json.dumps(json_data, indent=2)`, rendering
abstracted), a parse failure is wrapped with the raw text; empty stdout and a
raised run-command call get their own failure envelopes.  `parse` stands for
`json.loads` (returning `none` where Python raises `JSONDecodeError`). -/
def get_process_utilization (parse : String → Option JsonVal) (cl : AzureClient)
    (resourceGroup vmName osType : String) (sampleSeconds topN : Int) :
    List AzureCall × Except String JsonVal :=
  if resourceGroup = "" ∨ vmName = "" then
    ([], .ok (.obj [("error", .str "resource_group and vm_name are required"),
                    ("success", .bool false)]))
  else if strLower osType ≠ "windows" ∧ strLower osType ≠ "linux" then
    ([], .ok (.obj [("error", .str "os_type must be 'windows' or 'linux'"),
                    ("success", .bool false)]))
  else
    let commandId := runCommandIdFor osType
    let script := processUtilScript osType vmName sampleSeconds topN
    let call := AzureCall.runCommand resourceGroup vmName commandId [script]
    match cl.runCommand resourceGroup vmName commandId [script] with
    | .ok res =>
        let out := extractRunCommandOutput res.value
        if out.1 ≠ "" then
          match parse out.1 with
          | some j => ([call], .ok j)
          | none => ([call], .ok (jsonParseFailEnvelope out.1 out.2))
        else ([call], .ok (noOutputEnvelope out.2))
    | .error e =>
        ([call], .ok (.obj [("success", .bool false),
          ("error", .str ("Failed to get process utilization: " ++ e))]))

/-- Python truthiness of an `os.getenv` result inside `all([...])`
(line 716): unset, and set to the empty string, are both falsy. -/
def envTruthy : Option String → Bool
  | some s => s != ""
  | none => false

/-- The four names printed by lines 718–722, in print order. -/
def requiredEnvVarNames : List String :=
  ["AZURE_TENANT_ID", "AZURE_CLIENT_ID", "AZURE_CLIENT_SECRET",
   "AZURE_SUBSCRIPTION_ID"]

/-- The startup credential check of `main` (lines 710–723): given the four
`os.getenv` results, `none` means the process proceeds to serve; `some (c, l)`
means it prints the header and the name list `l` to stderr and exits with
status `c`.  The source always prints the same four names and exits 1. -/
def mainEnvCheck (tenantId clientId clientSecret subscriptionId :
    Option String) : Option (Nat × List String) :=
  if envTruthy tenantId && envTruthy clientId && envTruthy clientSecret &&
      envTruthy subscriptionId then none
  else some (1, requiredEnvVarNames)

/-- An envelope (rather than an uncaught exception) reached the transport. -/
def isOkEnvelope {α : Type} : Except String α → Bool
  | .ok _ => true
  | .error _ => false

/-- A stub remote client: run-command captures the given stdout/stderr, every
other primitive succeeds with synthetic identifiers. -/
def stubClient (out err : Option String) : AzureClient :=
  { createResourceGroup := fun _ _ => .ok ()
    createVirtualNetwork := fun _ _ _ => .ok ⟨"vnet-id-1"⟩
    createSubnet := fun _ _ _ _ => .ok ⟨"subnet-id-1"⟩
    createPublicIP := fun _ _ _ => .ok ⟨"pip-id-1"⟩
    createNetworkInterface := fun _ _ _ => .ok ⟨"nic-id-1"⟩
    createVirtualMachine := fun _ _ _ => .ok ⟨"vm-id-1"⟩
    getPublicIP := fun _ _ => .ok ⟨"20.1.2.3"⟩
    getVirtualMachine := fun _ _ => .ok ()
    restartVirtualMachine := fun _ _ => .ok ()
    runCommand := fun _ _ _ _ =>
      .ok ⟨[⟨"ComponentStatus/StdOut/succeeded", out⟩,
            ⟨"ComponentStatus/StdErr/succeeded", err⟩]⟩ }

/-- A stub client whose subnet creation raises. -/
def subnetFailClient : AzureClient :=
  { stubClient none none with
    createSubnet := fun _ _ _ _ => .error "subnet quota exceeded" }

/-- A stub client whose get-VM call raises NotFound. -/
def getVmFailClient : AzureClient :=
  { stubClient none none with
    getVirtualMachine := fun _ _ => .error "(ResourceNotFound) the VM was not found" }

/-- A JSON parser stub that fails on every input. -/
def noParse : String → Option JsonVal := fun _ => none

/-- A JSON parser stub that succeeds with a constant document. -/
def constParse (j : JsonVal) : String → Option JsonVal := fun _ => some j


/-- A string that contains a non-empty pattern is itself non-empty. -/
theorem ne_empty_of_strContains {s pat : String} (hp : pat.toList ≠ [])
    (h : strContains s pat = true) : s ≠ "" := by
  intro hs
  subst hs
  simp only [strContains, show ("" : String).toList = [] from rfl, charsContain] at h
  exact hp (List.isEmpty_iff.mp h)

/-- C1 (amended): after a successful outer run-command call, `restart_service`
returns the classification of the captured stdout/stderr of the inner
execution, and the ordered policy puts the success markers first: stdout
containing the marker "✅" or a case-insensitive "successfully" token yields
outcome success, even when the captured stderr is non-empty or "❌" is
present; only in the absence of both success markers does "❌" in stdout or
any non-empty captured stderr yield outcome failure; with no marker and no
captured stderr the outcome is the ⚠️ partial status. -/
theorem restart_service_classification_order
    (cl : AzureClient) (rg vm svc osType : String) (res : RunCommandResult)
    (output errorOutput : String)
    (hrg : rg ≠ "") (hvm : vm ≠ "") (hsvc : svc ≠ "")
    (hos : strLower osType = "windows" ∨ strLower osType = "linux")
    (hrun : cl.runCommand rg vm (runCommandIdFor osType)
      [serviceRestartScript osType svc vm] = .ok res)
    (hext : extractRunCommandOutput res.value = (output, errorOutput)) :
    restart_service cl rg vm svc osType =
      ([AzureCall.runCommand rg vm (runCommandIdFor osType)
          [serviceRestartScript osType svc vm]],
       .ok (classifyServiceOutput svc vm output errorOutput))
    ∧ (strContains output "✅" = true →
        classifyServiceOutcome output errorOutput = .success)
    ∧ (strContains output "✅" = false →
        strContains (strLower output) "successfully" = false →
        (strContains output "❌" = true ∨ errorOutput ≠ "") →
        classifyServiceOutcome output errorOutput = .failure)
    ∧ (strContains output "✅" = false →
        strContains (strLower output) "successfully" = false →
        strContains output "❌" = false → errorOutput = "" →
        classifyServiceOutcome output errorOutput = .ambiguous) := by
  refine ⟨?_, ?_, ?_, ?_⟩
  · rcases hos with h | h <;>
      simp [restart_service, hrg, hvm, hsvc, h, hrun, hext]
  · intro hc
    have hne : output ≠ "" := ne_empty_of_strContains (by decide) hc
    simp [classifyServiceOutcome, serviceSuccessMarker, hc, hne]
  · intro h1 h2 h3
    have hm : serviceSuccessMarker output = false := by
      simp [serviceSuccessMarker, h1, h2]
    rcases h3 with h | h <;>
      simp [classifyServiceOutcome, hm, serviceFailureMarker, h]
  · intro h1 h2 h3 h4
    subst h4
    simp [classifyServiceOutcome, serviceSuccessMarker, serviceFailureMarker,
      h1, h2, h3]

/-- C1, counterexample to the claimed order: the code tests the success
markers before the failure marker and before the captured stderr, so stdout
"✅" with non-empty stderr "boom" classifies as success (the claim demands
failure), and stdout containing "❌" next to a "✅" also classifies as
success (the claim demands failure for every output containing "❌"). -/
theorem restart_service_marker_order_cex :
    restart_service (stubClient (some "✅") (some "boom")) "rg1" "vm1" "tomcat"
      "windows" =
      ([AzureCall.runCommand "rg1" "vm1" "RunPowerShellScript"
          [windowsServiceRestartScript "tomcat" "vm1"]],
       .ok ("✅ Service Restart Completed for 'tomcat' on VM 'vm1':\n\n✅"))
    ∧ classifyServiceOutcome "✅" "boom" = ServiceOutcome.success
    ∧ classifyServiceOutcome "a ✅ b ❌ c" "" = ServiceOutcome.success
    ∧ ServiceOutcome.success ≠ ServiceOutcome.failure := by
  exact ⟨rfl, by decide, by decide, by decide⟩

/-- Witness for `restart_service_classification_order` at a concrete client
whose inner script printed the ✅ marker with empty stderr. -/
theorem restart_service_classification_order_witness :
    restart_service (stubClient (some "✅ Service restarted successfully!") none)
      "rg1" "vm1" "nginx" "linux" =
      ([AzureCall.runCommand "rg1" "vm1" (runCommandIdFor "linux")
          [serviceRestartScript "linux" "nginx" "vm1"]],
       .ok (classifyServiceOutput "nginx" "vm1"
         "✅ Service restarted successfully!" ""))
    ∧ classifyServiceOutcome "✅ Service restarted successfully!" "" =
        ServiceOutcome.success := by
  have h := restart_service_classification_order
    (stubClient (some "✅ Service restarted successfully!") none)
    "rg1" "vm1" "nginx" "linux"
    ⟨[⟨"ComponentStatus/StdOut/succeeded", some "✅ Service restarted successfully!"⟩,
      ⟨"ComponentStatus/StdErr/succeeded", none⟩]⟩
    "✅ Service restarted successfully!" ""
    (by decide) (by decide) (by decide) (Or.inr (by decide)) rfl (by decide)
  exact ⟨h.1, h.2.1 (by decide)⟩

/-- C2: if the subnet-creation step of `deploy_vm` raises after the resource
group and virtual network were created, the pipeline aborts: the trace is
exactly the three calls made so far — no public-IP, NIC, or VM creation call
is ever issued, and no rollback/teardown of the earlier-created resources —
and the returned envelope names the failed deployment and embeds the remote
error text. -/
theorem deploy_vm_fail_fast
    (cl : AzureClient) (rg vm pw loc size user osType e : String)
    (vnetR : AzResource)
    (hpw : pw ≠ "") (hos : osType = "linux" ∨ osType = "windows")
    (h1 : cl.createResourceGroup rg loc = .ok ())
    (h2 : cl.createVirtualNetwork rg (vm ++ "-vnet") (vnetParamsFor loc) = .ok vnetR)
    (h3 : cl.createSubnet rg (vm ++ "-vnet") (vm ++ "-subnet") deploySubnetParams =
      .error e) :
    deploy_vm cl rg vm pw loc size user osType =
      ([AzureCall.createResourceGroup rg loc,
        AzureCall.createVirtualNetwork rg (vm ++ "-vnet") (vnetParamsFor loc),
        AzureCall.createSubnet rg (vm ++ "-vnet") (vm ++ "-subnet") deploySubnetParams],
       .ok ("❌ Failed to deploy VM '" ++ vm ++ "': " ++ e))
    ∧ ∀ c ∈ (deploy_vm cl rg vm pw loc size user osType).1,
        (∀ g n p, c ≠ AzureCall.createPublicIP g n p) ∧
        (∀ g n p, c ≠ AzureCall.createNetworkInterface g n p) ∧
        (∀ g n p, c ≠ AzureCall.createVirtualMachine g n p) ∧
        (∀ n, c ≠ AzureCall.deleteResource n) := by
  have heq : deploy_vm cl rg vm pw loc size user osType =
      ([AzureCall.createResourceGroup rg loc,
        AzureCall.createVirtualNetwork rg (vm ++ "-vnet") (vnetParamsFor loc),
        AzureCall.createSubnet rg (vm ++ "-vnet") (vm ++ "-subnet") deploySubnetParams],
       .ok ("❌ Failed to deploy VM '" ++ vm ++ "': " ++ e)) := by
    rcases hos with h | h <;> subst h <;>
      simp [deploy_vm, deployVMPipeline, hpw, h1, h2, h3]
  refine ⟨heq, ?_⟩
  rw [heq]
  intro c hc
  simp only [List.mem_cons, List.not_mem_nil, or_false] at hc
  rcases hc with rfl | rfl | rfl <;>
    exact ⟨fun g n p h => AzureCall.noConfusion h,
           fun g n p h => AzureCall.noConfusion h,
           fun g n p h => AzureCall.noConfusion h,
           fun n h => AzureCall.noConfusion h⟩

/-- Witness for `deploy_vm_fail_fast`: a concrete client whose subnet
creation raises. -/
theorem deploy_vm_fail_fast_witness :
    deploy_vm subnetFailClient "rg1" "vm1" "Password1!" "eastus" "Standard_B2s"
      "azureuser" "linux" =
      ([AzureCall.createResourceGroup "rg1" "eastus",
        AzureCall.createVirtualNetwork "rg1" "vm1-vnet" (vnetParamsFor "eastus"),
        AzureCall.createSubnet "rg1" "vm1-vnet" "vm1-subnet" deploySubnetParams],
       .ok "❌ Failed to deploy VM 'vm1': subnet quota exceeded") :=
  (deploy_vm_fail_fast subnetFailClient "rg1" "vm1" "Password1!" "eastus"
    "Standard_B2s" "azureuser" "linux" "subnet quota exceeded" ⟨"vnet-id-1"⟩
    (by decide) (Or.inl rfl) rfl rfl rfl).1

/-- C3: when every remote call of `deploy_vm` succeeds, the create/update
calls are issued in the exact order resource-group → virtual-network →
subnet → public-IP → NIC → VM (then the final public-IP read), the NIC
request embeds the subnet's and the public IP's returned identifiers
verbatim, and the VM request embeds the NIC's returned identifier
verbatim. -/
theorem deploy_vm_success_pipeline
    (cl : AzureClient) (rg vm pw loc size user osType : String)
    (vnetR subnetR publicIpR nicR vmR : AzResource) (ipInfo : PublicIPInfo)
    (hpw : pw ≠ "") (hos : osType = "linux" ∨ osType = "windows")
    (h1 : cl.createResourceGroup rg loc = .ok ())
    (h2 : cl.createVirtualNetwork rg (vm ++ "-vnet") (vnetParamsFor loc) = .ok vnetR)
    (h3 : cl.createSubnet rg (vm ++ "-vnet") (vm ++ "-subnet") deploySubnetParams =
      .ok subnetR)
    (h4 : cl.createPublicIP rg (vm ++ "-ip") (publicIpParamsFor loc) = .ok publicIpR)
    (h5 : cl.createNetworkInterface rg (vm ++ "-nic")
      (nicParamsFor loc subnetR.id publicIpR.id) = .ok nicR)
    (h6 : cl.createVirtualMachine rg vm
      (vmParamsFor loc size (imageReferenceFor osType) vm user pw nicR.id) = .ok vmR)
    (h7 : cl.getPublicIP rg (vm ++ "-ip") = .ok ipInfo) :
    deploy_vm cl rg vm pw loc size user osType =
      ([AzureCall.createResourceGroup rg loc,
        AzureCall.createVirtualNetwork rg (vm ++ "-vnet") (vnetParamsFor loc),
        AzureCall.createSubnet rg (vm ++ "-vnet") (vm ++ "-subnet") deploySubnetParams,
        AzureCall.createPublicIP rg (vm ++ "-ip") (publicIpParamsFor loc),
        AzureCall.createNetworkInterface rg (vm ++ "-nic")
          (nicParamsFor loc subnetR.id publicIpR.id),
        AzureCall.createVirtualMachine rg vm
          (vmParamsFor loc size (imageReferenceFor osType) vm user pw nicR.id),
        AzureCall.getPublicIP rg (vm ++ "-ip")],
       .ok (deploySuccessMessage vm rg loc size osType ipInfo.ipAddress user))
    ∧ (nicParamsFor loc subnetR.id publicIpR.id).ipConfigurations =
        [⟨"ipconfig1", subnetR.id, publicIpR.id⟩]
    ∧ (vmParamsFor loc size (imageReferenceFor osType) vm user pw
        nicR.id).networkInterfaceId = nicR.id := by
  refine ⟨?_, rfl, rfl⟩
  rcases hos with h | h <;> subst h <;>
    simp [deploy_vm, deployVMPipeline, hpw, h1, h2, h3, h4, h5, h6, h7]

/-- Witness for `deploy_vm_success_pipeline`: the all-succeeding stub
client. -/
theorem deploy_vm_success_pipeline_witness :
    deploy_vm (stubClient none none) "rg1" "vm1" "Password1!" "eastus"
      "Standard_B2s" "azureuser" "linux" =
      ([AzureCall.createResourceGroup "rg1" "eastus",
        AzureCall.createVirtualNetwork "rg1" "vm1-vnet" (vnetParamsFor "eastus"),
        AzureCall.createSubnet "rg1" "vm1-vnet" "vm1-subnet" deploySubnetParams,
        AzureCall.createPublicIP "rg1" "vm1-ip" (publicIpParamsFor "eastus"),
        AzureCall.createNetworkInterface "rg1" "vm1-nic"
          (nicParamsFor "eastus" "subnet-id-1" "pip-id-1"),
        AzureCall.createVirtualMachine "rg1" "vm1"
          (vmParamsFor "eastus" "Standard_B2s" (imageReferenceFor "linux") "vm1"
            "azureuser" "Password1!" "nic-id-1"),
        AzureCall.getPublicIP "rg1" "vm1-ip"],
       .ok (deploySuccessMessage "vm1" "rg1" "eastus" "Standard_B2s" "linux"
         "20.1.2.3" "azureuser")) :=
  (deploy_vm_success_pipeline (stubClient none none) "rg1" "vm1" "Password1!"
    "eastus" "Standard_B2s" "azureuser" "linux" ⟨"vnet-id-1"⟩ ⟨"subnet-id-1"⟩
    ⟨"pip-id-1"⟩ ⟨"nic-id-1"⟩ ⟨"vm-id-1"⟩ ⟨"20.1.2.3"⟩
    (by decide) (Or.inl rfl) rfl rfl rfl rfl rfl rfl rfl).1

/-- C8: in every successful `deploy_vm` run the virtual network is created
with address space 10.0.0.0/16, the subnet with prefix 10.0.0.0/24, the
public address with static allocation (Standard SKU, IPv4), and the VM with
the os_type-selected image — Canonical Ubuntu 22.04 LTS gen2 for "linux",
WindowsServer 2022-datacenter-azure-edition for "windows" — and a FromImage
premium locally-redundant managed OS disk. -/
theorem deploy_vm_fixed_parameters
    (cl : AzureClient) (rg vm pw loc size user osType : String)
    (vnetR subnetR publicIpR nicR vmR : AzResource) (ipInfo : PublicIPInfo)
    (hpw : pw ≠ "") (hos : osType = "linux" ∨ osType = "windows")
    (h1 : cl.createResourceGroup rg loc = .ok ())
    (h2 : cl.createVirtualNetwork rg (vm ++ "-vnet") (vnetParamsFor loc) = .ok vnetR)
    (h3 : cl.createSubnet rg (vm ++ "-vnet") (vm ++ "-subnet") deploySubnetParams =
      .ok subnetR)
    (h4 : cl.createPublicIP rg (vm ++ "-ip") (publicIpParamsFor loc) = .ok publicIpR)
    (h5 : cl.createNetworkInterface rg (vm ++ "-nic")
      (nicParamsFor loc subnetR.id publicIpR.id) = .ok nicR)
    (h6 : cl.createVirtualMachine rg vm
      (vmParamsFor loc size (imageReferenceFor osType) vm user pw nicR.id) = .ok vmR)
    (h7 : cl.getPublicIP rg (vm ++ "-ip") = .ok ipInfo) :
    AzureCall.createVirtualNetwork rg (vm ++ "-vnet") ⟨loc, ["10.0.0.0/16"]⟩ ∈
      (deploy_vm cl rg vm pw loc size user osType).1
    ∧ AzureCall.createSubnet rg (vm ++ "-vnet") (vm ++ "-subnet") ⟨"10.0.0.0/24"⟩ ∈
      (deploy_vm cl rg vm pw loc size user osType).1
    ∧ AzureCall.createPublicIP rg (vm ++ "-ip") ⟨loc, "Standard", "Static", "IPv4"⟩ ∈
      (deploy_vm cl rg vm pw loc size user osType).1
    ∧ AzureCall.createVirtualMachine rg vm
        ⟨loc, size,
         (if osType = "linux" then
            ⟨"Canonical", "0001-com-ubuntu-server-jammy", "22_04-lts-gen2", "latest"⟩
          else
            ⟨"MicrosoftWindowsServer", "WindowsServer",
              "2022-datacenter-azure-edition", "latest"⟩),
         ⟨"FromImage", "Premium_LRS"⟩, vm, user, pw, nicR.id, true⟩ ∈
      (deploy_vm cl rg vm pw loc size user osType).1 := by
  have heq : (deploy_vm cl rg vm pw loc size user osType).1 =
      [AzureCall.createResourceGroup rg loc,
       AzureCall.createVirtualNetwork rg (vm ++ "-vnet") (vnetParamsFor loc),
       AzureCall.createSubnet rg (vm ++ "-vnet") (vm ++ "-subnet") deploySubnetParams,
       AzureCall.createPublicIP rg (vm ++ "-ip") (publicIpParamsFor loc),
       AzureCall.createNetworkInterface rg (vm ++ "-nic")
         (nicParamsFor loc subnetR.id publicIpR.id),
       AzureCall.createVirtualMachine rg vm
         (vmParamsFor loc size (imageReferenceFor osType) vm user pw nicR.id),
       AzureCall.getPublicIP rg (vm ++ "-ip")] := by
    rcases hos with h | h <;> subst h <;>
      simp [deploy_vm, deployVMPipeline, hpw, h1, h2, h3, h4, h5, h6, h7]
  rw [heq]
  refine ⟨?_, ?_, ?_, ?_⟩ <;>
    simp [vnetParamsFor, deploySubnetParams, publicIpParamsFor, vmParamsFor,
      imageReferenceFor, linuxImageReference, windowsImageReference, deployOsDisk]

/-- Witness for `deploy_vm_fixed_parameters` at the all-succeeding stub
client with os_type "linux". -/
theorem deploy_vm_fixed_parameters_witness :
    AzureCall.createVirtualNetwork "rg1" "vm1-vnet" ⟨"eastus", ["10.0.0.0/16"]⟩ ∈
      (deploy_vm (stubClient none none) "rg1" "vm1" "Password1!" "eastus"
        "Standard_B2s" "azureuser" "linux").1
    ∧ AzureCall.createSubnet "rg1" "vm1-vnet" "vm1-subnet" ⟨"10.0.0.0/24"⟩ ∈
      (deploy_vm (stubClient none none) "rg1" "vm1" "Password1!" "eastus"
        "Standard_B2s" "azureuser" "linux").1
    ∧ AzureCall.createPublicIP "rg1" "vm1-ip" ⟨"eastus", "Standard", "Static", "IPv4"⟩ ∈
      (deploy_vm (stubClient none none) "rg1" "vm1" "Password1!" "eastus"
        "Standard_B2s" "azureuser" "linux").1
    ∧ AzureCall.createVirtualMachine "rg1" "vm1"
        ⟨"eastus", "Standard_B2s",
         ⟨"Canonical", "0001-com-ubuntu-server-jammy", "22_04-lts-gen2", "latest"⟩,
         ⟨"FromImage", "Premium_LRS"⟩, "vm1", "azureuser", "Password1!",
         "nic-id-1", true⟩ ∈
      (deploy_vm (stubClient none none) "rg1" "vm1" "Password1!" "eastus"
        "Standard_B2s" "azureuser" "linux").1 := by
  have h := deploy_vm_fixed_parameters (stubClient none none) "rg1" "vm1"
    "Password1!" "eastus" "Standard_B2s" "azureuser" "linux" ⟨"vnet-id-1"⟩
    ⟨"subnet-id-1"⟩ ⟨"pip-id-1"⟩ ⟨"nic-id-1"⟩ ⟨"vm-id-1"⟩ ⟨"20.1.2.3"⟩
    (by decide) (Or.inl rfl) rfl rfl rfl rfl rfl rfl rfl
  exact ⟨h.1, h.2.1, h.2.2.1, h.2.2.2⟩

/-- C4: no tool call raises to the transport: for every argument values and
every behaviour of the remote client (including any remote call raising) and
any parser behaviour, each of `deploy_vm`, `restart_vm`, `restart_service`
and `get_process_utilization` terminates in a returned envelope — the
transport-facing result is `Except.ok` on every path. -/
theorem tools_never_raise (parse : String → Option JsonVal) (cl : AzureClient)
    (rg vm pw loc size user osType svc : String) (ss tn : Int) :
    isOkEnvelope (deploy_vm cl rg vm pw loc size user osType).2 = true
    ∧ isOkEnvelope (restart_vm cl rg vm).2 = true
    ∧ isOkEnvelope (restart_service cl rg vm svc osType).2 = true
    ∧ isOkEnvelope (get_process_utilization parse cl rg vm osType ss tn).2 = true := by
  refine ⟨?_, ?_, ?_, ?_⟩
  · unfold deploy_vm
    repeat' split
    all_goals rfl
  · unfold restart_vm
    repeat' split
    all_goals rfl
  · unfold restart_service
    dsimp only
    repeat' split
    all_goals rfl
  · unfold get_process_utilization
    dsimp only
    repeat' split
    all_goals rfl

/-- C5: `restart_vm` surfaces a raised get-VM call (for instance NotFound) as
a ❌ failure envelope naming the VM with no restart call issued — never as
the already-restarted ✅ success message — and when the get succeeds it
issues exactly one restart, awaited to completion before the ✅ message is
returned. -/
theorem restart_vm_pipeline (cl : AzureClient) (rg vm : String)
    (hrg : rg ≠ "") (hvm : vm ≠ "") :
    (∀ e, cl.getVirtualMachine rg vm = .error e →
      restart_vm cl rg vm =
        ([AzureCall.getVirtualMachine rg vm],
         .ok ("❌ Failed to restart VM '" ++ vm ++ "': " ++ e))
      ∧ ("❌ Failed to restart VM '" ++ vm ++ "': " ++ e) ≠
        ("✅ Successfully restarted VM '" ++ vm ++ "' in resource group '" ++
          rg ++ "'"))
    ∧ (cl.getVirtualMachine rg vm = .ok () →
      (restart_vm cl rg vm).1 =
        [AzureCall.getVirtualMachine rg vm, AzureCall.restartVirtualMachine rg vm]
      ∧ (restart_vm cl rg vm).1.count (AzureCall.restartVirtualMachine rg vm) = 1
      ∧ (cl.restartVirtualMachine rg vm = .ok () →
          restart_vm cl rg vm =
            ([AzureCall.getVirtualMachine rg vm,
              AzureCall.restartVirtualMachine rg vm],
             .ok ("✅ Successfully restarted VM '" ++ vm ++
               "' in resource group '" ++ rg ++ "'")))) := by
  constructor
  · intro e he
    constructor
    · simp [restart_vm, hrg, hvm, he]
    · intro h
      have h2 := congrArg (fun s => s.data.head?) h
      simp only [String.data_append] at h2
      simp at h2
  · intro hok
    have h1 : (restart_vm cl rg vm).1 =
        [AzureCall.getVirtualMachine rg vm,
         AzureCall.restartVirtualMachine rg vm] := by
      rcases hr : cl.restartVirtualMachine rg vm with u | e <;>
        simp [restart_vm, hrg, hvm, hok, hr]
    refine ⟨h1, ?_, ?_⟩
    · rw [h1]
      simp [List.count_cons]
    · intro hr
      simp [restart_vm, hrg, hvm, hok, hr]

/-- Witness for `restart_vm_pipeline`: the NotFound stub gives the ❌
envelope with a one-call trace, the all-succeeding stub gives the two-call
trace and the ✅ message. -/
theorem restart_vm_pipeline_witness :
    restart_vm getVmFailClient "rg1" "vm1" =
      ([AzureCall.getVirtualMachine "rg1" "vm1"],
       .ok "❌ Failed to restart VM 'vm1': (ResourceNotFound) the VM was not found")
    ∧ restart_vm (stubClient none none) "rg1" "vm1" =
      ([AzureCall.getVirtualMachine "rg1" "vm1",
        AzureCall.restartVirtualMachine "rg1" "vm1"],
       .ok "✅ Successfully restarted VM 'vm1' in resource group 'rg1'") := by
  constructor
  · exact ((restart_vm_pipeline getVmFailClient "rg1" "vm1"
      (by decide) (by decide)).1 _ rfl).1
  · exact ((restart_vm_pipeline (stubClient none none) "rg1" "vm1"
      (by decide) (by decide)).2 rfl).2.2 rfl

/-- C6: for a successful outer run-command call of `get_process_utilization`
with non-empty captured stdout, a parse failure returns the failure envelope
carrying the captured text verbatim in `raw_output` (no exception raised),
and a parse success returns the parsed document itself, round-tripped as the
result data. -/
theorem get_process_utilization_json_handling
    (parse : String → Option JsonVal) (cl : AzureClient)
    (rg vm osType : String) (ss tn : Int) (res : RunCommandResult)
    (output errorOutput : String)
    (hrg : rg ≠ "") (hvm : vm ≠ "")
    (hos : strLower osType = "windows" ∨ strLower osType = "linux")
    (hrun : cl.runCommand rg vm (runCommandIdFor osType)
      [processUtilScript osType vm ss tn] = .ok res)
    (hext : extractRunCommandOutput res.value = (output, errorOutput))
    (hout : output ≠ "") :
    (parse output = none →
      get_process_utilization parse cl rg vm osType ss tn =
        ([AzureCall.runCommand rg vm (runCommandIdFor osType)
            [processUtilScript osType vm ss tn]],
         .ok (jsonParseFailEnvelope output errorOutput))
      ∧ (jsonParseFailEnvelope output errorOutput).getField "raw_output" =
          some (.str output)
      ∧ (jsonParseFailEnvelope output errorOutput).getField "success" =
          some (.bool false))
    ∧ (∀ j, parse output = some j →
      get_process_utilization parse cl rg vm osType ss tn =
        ([AzureCall.runCommand rg vm (runCommandIdFor osType)
            [processUtilScript osType vm ss tn]],
         .ok j)) := by
  constructor
  · intro hp
    refine ⟨?_, rfl, rfl⟩
    rcases hos with h | h <;>
      simp [get_process_utilization, hrg, hvm, h, hrun, hext, hout, hp]
  · intro j hp
    rcases hos with h | h <;>
      simp [get_process_utilization, hrg, hvm, h, hrun, hext, hout, hp]

/-- Witness for `get_process_utilization_json_handling`: unparseable captured
output "garbage" yields the raw-carrying failure envelope; parseable output
yields the parsed document. -/
theorem get_process_utilization_json_handling_witness :
    get_process_utilization noParse (stubClient (some "garbage") none)
      "rg1" "vm1" "windows" 5 15 =
      ([AzureCall.runCommand "rg1" "vm1" (runCommandIdFor "windows")
          [processUtilScript "windows" "vm1" 5 15]],
       .ok (jsonParseFailEnvelope "garbage" ""))
    ∧ (jsonParseFailEnvelope "garbage" "").getField "raw_output" =
        some (.str "garbage")
    ∧ get_process_utilization (constParse (.obj [("success", .bool true)]))
        (stubClient (some "\x7b\"success\": true\x7d") none)
        "rg1" "vm1" "windows" 5 15 =
      ([AzureCall.runCommand "rg1" "vm1" (runCommandIdFor "windows")
          [processUtilScript "windows" "vm1" 5 15]],
       .ok (.obj [("success", .bool true)])) := by
  have h1 := get_process_utilization_json_handling noParse
    (stubClient (some "garbage") none) "rg1" "vm1" "windows" 5 15
    ⟨[⟨"ComponentStatus/StdOut/succeeded", some "garbage"⟩,
      ⟨"ComponentStatus/StdErr/succeeded", none⟩]⟩ "garbage" ""
    (by decide) (by decide) (Or.inl (by decide)) rfl (by decide) (by decide)
  have h2 := get_process_utilization_json_handling
    (constParse (.obj [("success", .bool true)]))
    (stubClient (some "\x7b\"success\": true\x7d") none) "rg1" "vm1" "windows" 5 15
    ⟨[⟨"ComponentStatus/StdOut/succeeded", some "\x7b\"success\": true\x7d"⟩,
      ⟨"ComponentStatus/StdErr/succeeded", none⟩]⟩ "\x7b\"success\": true\x7d" ""
    (by decide) (by decide) (Or.inl (by decide)) rfl (by decide) (by decide)
  exact ⟨(h1.1 rfl).1, (h1.1 rfl).2.1, h2.2 _ rfl⟩

/-- C10: for a successful outer run-command call of `get_process_utilization`
with empty captured stdout, the tool returns the "No output received from VM"
failure envelope carrying the captured stderr, without attempting JSON
parsing (the result does not depend on the parser) and without raising. -/
theorem get_process_utilization_no_output
    (parse : String → Option JsonVal) (cl : AzureClient)
    (rg vm osType : String) (ss tn : Int) (res : RunCommandResult)
    (errorOutput : String)
    (hrg : rg ≠ "") (hvm : vm ≠ "")
    (hos : strLower osType = "windows" ∨ strLower osType = "linux")
    (hrun : cl.runCommand rg vm (runCommandIdFor osType)
      [processUtilScript osType vm ss tn] = .ok res)
    (hext : extractRunCommandOutput res.value = ("", errorOutput)) :
    get_process_utilization parse cl rg vm osType ss tn =
      ([AzureCall.runCommand rg vm (runCommandIdFor osType)
          [processUtilScript osType vm ss tn]],
       .ok (noOutputEnvelope errorOutput))
    ∧ (noOutputEnvelope errorOutput).getField "error" =
        some (.str "No output received from VM")
    ∧ (noOutputEnvelope errorOutput).getField "error_output" =
        some (.str errorOutput)
    ∧ ∀ parse2 : String → Option JsonVal,
        get_process_utilization parse2 cl rg vm osType ss tn =
          get_process_utilization parse cl rg vm osType ss tn := by
  have key : ∀ p : String → Option JsonVal,
      get_process_utilization p cl rg vm osType ss tn =
        ([AzureCall.runCommand rg vm (runCommandIdFor osType)
            [processUtilScript osType vm ss tn]],
         .ok (noOutputEnvelope errorOutput)) := by
    intro p
    rcases hos with h | h <;>
      simp [get_process_utilization, hrg, hvm, h, hrun, hext]
  exact ⟨key parse, rfl, rfl, fun parse2 => by rw [key parse2, key parse]⟩

/-- Witness for `get_process_utilization_no_output`: stderr captured, stdout
empty. -/
theorem get_process_utilization_no_output_witness :
    get_process_utilization noParse (stubClient none (some "boom"))
      "rg1" "vm1" "linux" 5 15 =
      ([AzureCall.runCommand "rg1" "vm1" (runCommandIdFor "linux")
          [processUtilScript "linux" "vm1" 5 15]],
       .ok (noOutputEnvelope "boom")) :=
  (get_process_utilization_no_output noParse (stubClient none (some "boom"))
    "rg1" "vm1" "linux" 5 15
    ⟨[⟨"ComponentStatus/StdOut/succeeded", none⟩,
      ⟨"ComponentStatus/StdErr/succeeded", some "boom"⟩]⟩ "boom"
    (by decide) (by decide) (Or.inr (by decide)) rfl (by decide)).1

/-- C7, counterexample: with only the tenant identifier missing, the process
still prints all four required variable names — not the list of the missing
ones — and a variable that is set but empty is also treated as missing, so
"all four present" does not guarantee that no exit occurs. -/
theorem main_env_check_lists_all_names_cex :
    mainEnvCheck none (some "client-x") (some "secret-x") (some "sub-x") =
      some (1, ["AZURE_TENANT_ID", "AZURE_CLIENT_ID", "AZURE_CLIENT_SECRET",
                "AZURE_SUBSCRIPTION_ID"])
    ∧ ["AZURE_TENANT_ID", "AZURE_CLIENT_ID", "AZURE_CLIENT_SECRET",
       "AZURE_SUBSCRIPTION_ID"] ≠ ["AZURE_TENANT_ID"]
    ∧ mainEnvCheck (some "") (some "client-x") (some "secret-x") (some "sub-x") ≠
        none := by
  exact ⟨by decide, by decide, by decide⟩

/-- C7 (amended): at startup, if any of the four required environment inputs
is absent or set to the empty string, the process prints the fixed enumerated
list of all four required variable names to the error stream and exits with
status 1 before serving; if all four are present and non-empty, no such exit
occurs. -/
theorem main_env_check_exit (t c s i : Option String) :
    (envTruthy t = false ∨ envTruthy c = false ∨ envTruthy s = false ∨
        envTruthy i = false →
      mainEnvCheck t c s i = some (1, requiredEnvVarNames))
    ∧ (envTruthy t = true → envTruthy c = true → envTruthy s = true →
        envTruthy i = true → mainEnvCheck t c s i = none) := by
  constructor
  · intro h
    rcases h with h | h | h | h <;> simp [mainEnvCheck, h]
  · intro h1 h2 h3 h4
    simp [mainEnvCheck, h1, h2, h3, h4]

/-- Witness for `main_env_check_exit`: one missing variable exits with the
fixed list; all four set and non-empty proceeds. -/
theorem main_env_check_exit_witness :
    mainEnvCheck none (some "c") (some "s") (some "i") =
      some (1, requiredEnvVarNames)
    ∧ mainEnvCheck (some "t") (some "c") (some "s") (some "i") = none := by
  exact ⟨(main_env_check_exit none (some "c") (some "s") (some "i")).1
      (Or.inl rfl),
    (main_env_check_exit (some "t") (some "c") (some "s") (some "i")).2
      (by decide) (by decide) (by decide) (by decide)⟩

/-- C9: os_type validation is case-sensitive in `deploy_vm` — any value other
than exactly "linux" or "windows" is rejected with no remote call — while
`restart_service` and `get_process_utilization` lower-case os_type before the
membership check, so any value whose lower-casing is "windows" or "linux"
passes validation and the run-command call is issued. -/
theorem os_type_case_sensitivity
    (parse : String → Option JsonVal) (cl : AzureClient)
    (rg vm svc pw loc size user osType : String) (ss tn : Int) :
    (osType ≠ "linux" → osType ≠ "windows" → pw ≠ "" →
      deploy_vm cl rg vm pw loc size user osType =
        ([], .ok "❌ Error: os_type must be 'linux' or 'windows'"))
    ∧ ((strLower osType = "windows" ∨ strLower osType = "linux") →
       rg ≠ "" → vm ≠ "" → svc ≠ "" →
      (restart_service cl rg vm svc osType).1 =
        [AzureCall.runCommand rg vm (runCommandIdFor osType)
          [serviceRestartScript osType svc vm]])
    ∧ ((strLower osType = "windows" ∨ strLower osType = "linux") →
       rg ≠ "" → vm ≠ "" →
      (get_process_utilization parse cl rg vm osType ss tn).1 =
        [AzureCall.runCommand rg vm (runCommandIdFor osType)
          [processUtilScript osType vm ss tn]]) := by
  refine ⟨?_, ?_, ?_⟩
  · intro h1 h2 hpw
    simp [deploy_vm, hpw, h1, h2]
  · intro hos hrg hvm hsvc
    rcases hc : cl.runCommand rg vm (runCommandIdFor osType)
        [serviceRestartScript osType svc vm] with res | e <;>
      rcases hos with h | h <;>
        simp [restart_service, hrg, hvm, hsvc, h, hc]
  · intro hos hrg hvm
    rcases hc : cl.runCommand rg vm (runCommandIdFor osType)
        [processUtilScript osType vm ss tn] with e | res
    · rcases hos with h | h <;>
        simp [get_process_utilization, hrg, hvm, h, hc]
    · by_cases ho : (extractRunCommandOutput res.value).1 ≠ ""
      · rcases hp : parse (extractRunCommandOutput res.value).1 with _ | j <;>
          rcases hos with h | h <;>
            simp [get_process_utilization, hrg, hvm, h, hc, ho, hp]
      · rcases hos with h | h <;>
          simp [get_process_utilization, hrg, hvm, h, hc, ho]

/-- Witness for `os_type_case_sensitivity`: "Linux" is rejected by
`deploy_vm` with an empty trace but accepted (run-command issued) by
`restart_service`; "WINDOWS" is accepted by `get_process_utilization`. -/
theorem os_type_case_sensitivity_witness :
    deploy_vm (stubClient none none) "rg1" "vm1" "Password1!" "eastus"
      "Standard_B2s" "azureuser" "Linux" =
      ([], .ok "❌ Error: os_type must be 'linux' or 'windows'")
    ∧ (restart_service (stubClient none none) "rg1" "vm1" "nginx" "Linux").1 =
      [AzureCall.runCommand "rg1" "vm1" (runCommandIdFor "Linux")
        [serviceRestartScript "Linux" "nginx" "vm1"]]
    ∧ (get_process_utilization noParse (stubClient none none) "rg1" "vm1"
        "WINDOWS" 5 15).1 =
      [AzureCall.runCommand "rg1" "vm1" (runCommandIdFor "WINDOWS")
        [processUtilScript "WINDOWS" "vm1" 5 15]] := by
  refine ⟨?_, ?_, ?_⟩
  · exact (os_type_case_sensitivity noParse (stubClient none none) "rg1" "vm1"
      "nginx" "Password1!" "eastus" "Standard_B2s" "azureuser" "Linux" 5 15).1
      (by decide) (by decide) (by decide)
  · exact (os_type_case_sensitivity noParse (stubClient none none) "rg1" "vm1"
      "nginx" "Password1!" "eastus" "Standard_B2s" "azureuser" "Linux" 5 15).2.1
      (Or.inr (by decide)) (by decide) (by decide) (by decide)
  · exact (os_type_case_sensitivity noParse (stubClient none none) "rg1" "vm1"
      "nginx" "Password1!" "eastus" "Standard_B2s" "azureuser" "WINDOWS" 5 15).2.2
      (Or.inl (by decide)) (by decide) (by decide)
